import Mathlib

/-!
Verification development for the learning-english repository.

This file shallowly embeds the local persistent data store
(`src/database/json-db.js`), the store manager (`src/database/manager.js`)
and the vocabulary access facade over the remote search index
(`src/api/vocabulary-api.js`, `src/api/solr-service.js`), and proves the
testable properties of the specification against those embeddings.

Modelling conventions:
 - JavaScript strings are Lean `String`s; a possibly-`undefined` object field
   is an `Option`; JS truthiness of a string is "defined and non-empty",
   of a number "defined and non-zero".
 - JS numbers that the code only ever uses as non-negative integers (ids,
   counts, offsets) are `Nat`; statistics ratios are modelled exactly as `ℚ`.
 - Wall-clock timestamps (`created`, `lastModified`, `lastReviewed`) and the
   randomly generated session/document identifiers are not modelled: no claim
   depends on them, and they carry no invariant.
 - The persisted file is modelled as `Option DBData`: the JSON text at the one
   database location, already parsed.  `JSON.stringify`/`JSON.parse` of the
   store document is treated as the identity on the data it encodes.
 - Remote HTTP calls are oracled: each facade method takes the result the
   Solr client would deliver as an explicit argument, and the embedding
   covers everything the JavaScript does before and after that call.
 - An `async` JavaScript function that can hit an unguarded method call on a
   possibly-`undefined` value is embedded in `Except String`, where `.error`
   is the thrown `TypeError`.
-/

namespace LearningEnglish

/-- JS truthiness of a possibly-undefined string value
(`undefined` and `""` are falsy). -/
def truthyStr : Option String → Bool
  | none => false
  | some s => s ≠ ""

/-- JS truthiness of a possibly-undefined number used as a Nat
(`undefined` and `0` are falsy). -/
def truthyNat : Option Nat → Bool
  | none => false
  | some n => n ≠ 0

/-- `a || d` for a possibly-undefined string `a`: the JS default-on-falsy
idiom used by `addVocabulary` and `addCategory`. -/
def jsOrStr (a : Option String) (d : String) : String :=
  match a with
  | none => d
  | some s => if s = "" then d else s

/-- A JSON-serializable settings value (the repository only stores strings,
booleans and numbers in `settings`). -/
inductive SettingVal where
  | str (s : String)
  | boolean (b : Bool)
  | num (n : Int)
  deriving DecidableEq

/-- Assign `key := value` in an association-list mapping, replacing an
existing binding (JS object property assignment; keys stay unique). -/
def setKey : List (String × SettingVal) → String → SettingVal → List (String × SettingVal)
  | [], k, v => [(k, v)]
  | (k', v') :: rest, k, v =>
      if k' = k then (k, v) :: rest else (k', v') :: setKey rest k v

namespace JSONDatabase

/-- A stored vocabulary record.  `english`/`vietnamese` are copied from the
caller's input without validation, so they may be absent; `type`, `phonetic`,
`example` and `category` are defaulted on add but may still be absent in
records loaded from a hand-edited file. -/
structure Entry where
  id : Nat
  english : Option String
  vietnamese : Option String
  type : Option String
  phonetic : Option String
  «example» : Option String
  category : Option String
  masteryLevel : Int
  reviewCount : Nat
  deriving DecidableEq

/-- The caller-supplied word object passed to `addVocabulary`
(every field may be absent). -/
structure RawWord where
  english : Option String := none
  vietnamese : Option String := none
  type : Option String := none
  phonetic : Option String := none
  «example» : Option String := none
  category : Option String := none
  deriving DecidableEq

/-- A stored category record. -/
structure Category where
  id : Nat
  name : Option String
  description : String
  color : String
  deriving DecidableEq

/-- The caller-supplied category object passed to `addCategory`. -/
structure CatInput where
  name : Option String := none
  description : Option String := none
  color : Option String := none
  deriving DecidableEq

/-- A recorded learning session. -/
structure Session where
  id : Nat
  wordId : Nat
  correct : Bool
  responseTime : ℚ
  sessionType : String
  deriving DecidableEq

/-- The four logical tables of the store document (`this.data`; the
`metadata` timestamps are not modelled). -/
structure DBData where
  vocabulary : List Entry := []
  categories : List Category := []
  sessions : List Session := []
  settings : List (String × SettingVal) := []
  deriving DecidableEq

/-- In-memory state of a `JSONDatabase` instance: the data document, the
per-table next-id counters, whether `dbPath` has been set and whether the
instance is connected. -/
structure State where
  data : DBData := {}
  nextVocabId : Nat := 1
  nextCatId : Nat := 1
  nextSessId : Nat := 1
  hasPath : Bool := false
  isConnected : Bool := false
  deriving DecidableEq

/-- The constructor state: empty tables, all next-id counters at 1. -/
def freshState : State := {}

/-- The single database file location, holding the parsed store document
when the file exists. -/
abbrev FSFile : Type := Option DBData

/-- A location with no database file yet. -/
def emptyFS : FSFile := none

/-- `saveData()`: writes the current document to the file when a path is
set; returns `false` without writing otherwise. -/
def jsSaveData (s : State) (fs : FSFile) : FSFile × Bool :=
  if s.hasPath then (some s.data, true) else (fs, false)

/-- The record built by `addVocabulary`: id from the counter, unvalidated
`english`/`vietnamese`, `||`-defaults for the remaining text fields,
masteryLevel 0, reviewCount 0. -/
def mkEntry (nid : Nat) (w : RawWord) : Entry where
  id := nid
  english := w.english
  vietnamese := w.vietnamese
  type := some (jsOrStr w.type "unknown")
  phonetic := some (jsOrStr w.phonetic "")
  «example» := some (jsOrStr w.«example» "")
  category := some (jsOrStr w.category "general")
  masteryLevel := 0
  reviewCount := 0

/-- `addVocabulary` without the save: pushes the new record, bumps the
counter, returns the assigned id (`this.nextIds.vocabulary++`). -/
def addVocabularyCore (s : State) (w : RawWord) : State × Nat :=
  ({ s with
      data := { s.data with vocabulary := s.data.vocabulary ++ [mkEntry s.nextVocabId w] },
      nextVocabId := s.nextVocabId + 1 },
   s.nextVocabId)

/-- `addVocabulary(word)`: append the defaulted record, persist, return the
new id. -/
def addVocabularyFS (s : State) (fs : FSFile) (w : RawWord) : State × FSFile × Nat :=
  let (s', nid) := addVocabularyCore s w
  ((s', ((jsSaveData s' fs).1 : FSFile), nid) : State × FSFile × Nat)

/-- `deleteVocabulary(wordId)` without the save: `findIndex` by id, `splice`
the first match out, report whether anything was found. -/
def deleteVocabularyCore (s : State) (wordId : Nat) : State × Bool :=
  if s.data.vocabulary.any (fun w => w.id == wordId) then
    ({ s with
        data := { s.data with
          vocabulary := s.data.vocabulary.eraseP (fun w => w.id == wordId) } },
     true)
  else (s, false)

/-- `deleteVocabulary(wordId)`: remove the first record with that id and
persist; `false` when the id is absent. -/
def deleteVocabularyFS (s : State) (fs : FSFile) (wordId : Nat) : State × FSFile × Bool :=
  let r := deleteVocabularyCore s wordId
  if r.2 then ((r.1, ((jsSaveData r.1 fs).1 : FSFile), true) : State × FSFile × Bool)
  else ((s, fs, false) : State × FSFile × Bool)

/-- The options bag of `getAllVocabulary` (absent fields are `undefined`). -/
structure ListOptions where
  category : Option String := none
  offset : Option Nat := none
  limit : Option Nat := none
  deriving DecidableEq

/-- `getAllVocabulary(options)`: copy the table, filter by category when the
option is truthy, then `slice(offset)` when truthy, then `slice(0, limit)`
when truthy — in that order. -/
def getAllVocabulary (s : State) (o : ListOptions) : List Entry :=
  let r := s.data.vocabulary
  let r := if truthyStr o.category then
      r.filter (fun w => w.category == o.category) else r
  let r := if truthyNat o.offset then r.drop (o.offset.getD 0) else r
  let r := if truthyNat o.limit then r.take (o.limit.getD 0) else r
  r

/-- Is the pattern a leading segment of the character list? -/
def chPre : List Char → List Char → Bool
  | [], _ => true
  | _ :: _, [] => false
  | a :: as, b :: bs => a == b && chPre as bs

/-- Does the pattern occur as a contiguous segment of the character list?
(`String.prototype.includes`; the empty pattern always matches.) -/
def chSub (t : List Char) : List Char → Bool
  | [] => chPre t []
  | b :: s' => chPre t (b :: s') || chSub t s'

/-- `haystack.includes(needle)`. -/
def jsIncludes (haystack needle : String) : Bool :=
  chSub needle.data haystack.data

/-- `s.toLowerCase()` on an ASCII-compatible approximation. -/
def jsLower (s : String) : String :=
  s.map Char.toLower

/-- `field.toLowerCase()` on a possibly-undefined field: a `TypeError`
when the field is absent. -/
def jsToLowerField : Option String → Except String String
  | none => .error "TypeError: Cannot read properties of undefined (reading toLowerCase)"
  | some s => .ok (jsLower s)

/-- The filter predicate of `searchVocabulary`, with JS short-circuit `||`:
english, then vietnamese, then type are lowercased unguarded (throwing when
absent), while example is guarded by its own truthiness. -/
def entryMatches (t : String) (w : Entry) : Except String Bool :=
  match jsToLowerField w.english with
  | .error msg => .error msg
  | .ok e =>
    if jsIncludes e t then .ok true else
    match jsToLowerField w.vietnamese with
    | .error msg => .error msg
    | .ok v =>
      if jsIncludes v t then .ok true else
      match jsToLowerField w.type with
      | .error msg => .error msg
      | .ok ty =>
        if jsIncludes ty t then .ok true else
        match w.«example» with
        | none => .ok false
        | some ex => if ex = "" then .ok false else .ok (jsIncludes (jsLower ex) t)

/-- Left-to-right `Array.prototype.filter` under a predicate that may
throw; the first thrown error aborts the whole call. -/
def filterEntries (p : Entry → Except String Bool) : List Entry → Except String (List Entry)
  | [] => .ok []
  | w :: ws =>
    match p w with
    | .error msg => .error msg
    | .ok b =>
      match filterEntries p ws with
      | .error msg => .error msg
      | .ok rest => .ok (if b then w :: rest else rest)

/-- `searchVocabulary(query)`: case-insensitive substring match over
english, vietnamese, type and (guarded) example. -/
def searchVocabulary (s : State) (query : String) : Except String (List Entry) :=
  filterEntries (entryMatches (jsLower query)) s.data.vocabulary

/-- The result object of `getOverallProgress`. -/
structure Progress where
  totalWords : Nat
  masteredWords : Nat
  totalSessions : Nat
  correctSessions : Nat
  overallAccuracy : ℚ
  masteryPercentage : ℚ
  deriving DecidableEq

/-- `getOverallProgress()`: counts plus guarded ratios
(`total > 0 ? part / total : 0`). -/
def getOverallProgress (s : State) : Progress :=
  let totalWords := s.data.vocabulary.length
  let totalSessions := s.data.sessions.length
  let correctSessions := (s.data.sessions.filter (fun t => t.correct)).length
  let masteredWords := (s.data.vocabulary.filter (fun w => 4 ≤ w.masteryLevel)).length
  { totalWords, masteredWords, totalSessions, correctSessions,
    overallAccuracy :=
      if 0 < totalSessions then (correctSessions : ℚ) / (totalSessions : ℚ) else 0,
    masteryPercentage :=
      if 0 < totalWords then (masteredWords : ℚ) / (totalWords : ℚ) else 0 }

/-- `addCategory(category)` without the save: id from the counter, raw name,
`||`-defaults for description and color. -/
def addCategoryCore (s : State) (c : CatInput) : State × Nat :=
  ({ s with
      data := { s.data with categories := s.data.categories ++
        [{ id := s.nextCatId, name := c.name,
           description := jsOrStr c.description "",
           color := jsOrStr c.color "#3b82f6" }] },
      nextCatId := s.nextCatId + 1 },
   s.nextCatId)

/-- `addCategory(category)`: append the record, persist, return the id. -/
def addCategoryFS (s : State) (fs : FSFile) (c : CatInput) : State × FSFile × Nat :=
  let (s', nid) := addCategoryCore s c
  ((s', ((jsSaveData s' fs).1 : FSFile), nid) : State × FSFile × Nat)

/-- `getAllCategories()`: a copy of the categories table. -/
def getAllCategories (s : State) : List Category :=
  s.data.categories

/-- `getAllSettings()`: a copy of the settings mapping. -/
def getAllSettings (s : State) : List (String × SettingVal) :=
  s.data.settings

/-- `saveSetting(key, value)`: assign and persist. -/
def saveSettingFS (s : State) (fs : FSFile) (k : String) (v : SettingVal) : State × FSFile :=
  let s' := { s with data := { s.data with settings := setKey s.data.settings k v } }
  ((s', ((jsSaveData s' fs).1 : FSFile)) : State × FSFile)

/-- The largest id in a table, 0 when empty:
`Math.max(0, ...rows.map(r => r.id || 0))`. -/
def maxId (ids : List Nat) : Nat :=
  ids.foldr max 0

/-- `initialize(dbPath)` on the happy I/O path: record the path; when the
file exists, replace the in-memory tables with its contents (the top-level
spread merge — the loaded document always carries all tables) and recompute
every next-id counter as max existing id + 1; when it does not exist, keep
the in-memory data and persist it to create the file.  Marks the instance
connected and reports success. -/
def initDb (s : State) (fs : FSFile) : State × FSFile × Bool :=
  let s := { s with hasPath := true }
  match fs with
  | some d =>
      (({ s with
          data := d,
          nextVocabId := maxId (d.vocabulary.map (fun w => w.id)) + 1,
          nextCatId := maxId (d.categories.map (fun c => c.id)) + 1,
          nextSessId := maxId (d.sessions.map (fun t => t.id)) + 1,
          isConnected := true }, fs, true) : State × FSFile × Bool)
  | none =>
      let s' := { s with isConnected := true }
      ((s', ((jsSaveData s' fs).1 : FSFile), true) : State × FSFile × Bool)

/-- `close()`: flush when connected, then mark disconnected. -/
def closeDb (s : State) (fs : FSFile) : State × FSFile :=
  if s.isConnected then
    (({ s with isConnected := false }, ((jsSaveData s fs).1 : FSFile)) : State × FSFile)
  else ((s, fs) : State × FSFile)

/-- The per-record validity test of `importVocabulary`:
`word.english && word.vietnamese` (both defined and non-empty). -/
def validWord (w : RawWord) : Bool :=
  truthyStr w.english && truthyStr w.vietnamese

/-- The import loop of `importVocabulary`: each valid candidate is added
through `addVocabulary`, invalid ones are skipped, nothing aborts the
batch.  Returns the final state, file and the `imported` counter. -/
def importLoop (s : State) (fs : FSFile) (imported : Nat) :
    List RawWord → State × FSFile × Nat
  | [] => ((s, fs, imported) : State × FSFile × Nat)
  | w :: ws =>
    if validWord w then
      let r := addVocabularyFS s fs w
      importLoop r.1 r.2.1 (imported + 1) ws
    else importLoop s fs imported ws

/-- The result object of `importVocabulary`, together with the resulting
store state and file. -/
structure ImportResult where
  state : State
  file : FSFile
  imported : Nat
  total : Nat

/-- `importVocabulary` after the payload has been parsed into candidate
records (the parse itself is file I/O): per-record validation, counts
`imported` and `total = words.length`. -/
def importVocabularyRecords (s : State) (fs : FSFile) (ws : List RawWord) : ImportResult :=
  let r := importLoop s fs 0 ws
  { state := r.1, file := r.2.1, imported := r.2.2, total := ws.length }

/-- A payload of five candidate records, two of which lack a Vietnamese
value. -/
def importDemo : List RawWord :=
  [{ english := some "one", vietnamese := some "m\u1ed9t" },
   { english := some "two" },
   { english := some "three", vietnamese := some "ba" },
   { english := some "four", vietnamese := some "" },
   { english := some "five", vietnamese := some "n\u0103m" }]

/-- One step of a vocabulary mutation sequence: an `addVocabulary` call or
a `deleteVocabulary` call. -/
inductive VocabOp where
  | add (w : RawWord)
  | del (i : Nat)
  deriving DecidableEq

/-- Run a sequence of add/delete operations against the store, collecting
the ids returned by the adds, in order. -/
def runOps : State → FSFile → List VocabOp → State × FSFile × List Nat
  | s, fs, [] => ((s, fs, []) : State × FSFile × List Nat)
  | s, fs, .add w :: ops =>
      let r := addVocabularyFS s fs w
      let rest := runOps r.1 r.2.1 ops
      ((rest.1, rest.2.1, r.2.2 :: rest.2.2) : State × FSFile × List Nat)
  | s, fs, .del i :: ops =>
      let r := deleteVocabularyFS s fs i
      runOps r.1 r.2.1 ops

/-- The number of adds in an operation sequence. -/
def countAdds : List VocabOp → Nat
  | [] => 0
  | .add _ :: ops => countAdds ops + 1
  | .del _ :: ops => countAdds ops

/-- Run a sequence of adds. -/
def runAdds (s : State) (fs : FSFile) (ws : List RawWord) : State × FSFile × List Nat :=
  runOps s fs (ws.map .add)

/-- Round-trip scenario, first half: initialize a fresh store at an empty
location, then add the given words.  Returns the live state and the file. -/
def scenarioAdded (ws : List RawWord) : State × FSFile :=
  let p1 := initDb freshState emptyFS
  let p2 := runAdds p1.1 p1.2.1 ws
  ((p2.1, p2.2.1) : State × FSFile)

/-- A minimal stored entry with a given id and category, as used by the
concrete instances below. -/
def sampleEntry (n : Nat) (cat : String) : Entry :=
  { id := n, english := some "word", vietnamese := some "nghĩa",
    type := some "noun", phonetic := some "", «example» := some "",
    category := some cat, masteryLevel := 0, reviewCount := 0 }

/-- A store whose table holds exactly three Basic-category entries (ids 1,
3, 4) in insertion order, plus one Travel entry. -/
def c3State : State :=
  { data := { vocabulary :=
      [sampleEntry 1 "Basic", sampleEntry 2 "Travel",
       sampleEntry 3 "Basic", sampleEntry 4 "Basic"] } }

/-- Round-trip scenario, second half: close the store, then re-initialize
the same instance from the same location. -/
def scenarioReloaded (ws : List RawWord) : State × FSFile :=
  let p2 := scenarioAdded ws
  let p3 := closeDb p2.1 p2.2
  let p4 := initDb p3.1 p3.2
  ((p4.1, p4.2.1) : State × FSFile)

end JSONDatabase

namespace DatabaseManager

open JSONDatabase

/-- The five fixed starter categories seeded by `initializeDefaultData`. -/
def defaultCategories : List CatInput :=
  [{ name := some "Basic", description := some "Basic everyday vocabulary",
     color := some "#3b82f6" },
   { name := some "Travel", description := some "Travel and transportation related words",
     color := some "#10b981" },
   { name := some "Food", description := some "Food and dining vocabulary",
     color := some "#f59e0b" },
   { name := some "Work", description := some "Professional and workplace terms",
     color := some "#8b5cf6" },
   { name := some "Family", description := some "Family and relationships",
     color := some "#ef4444" }]

/-- The three sample vocabulary entries seeded by `initializeDefaultData`. -/
def sampleWords : List RawWord :=
  [{ english := some "Hello", vietnamese := some "Xin chào",
     type := some "interjection", phonetic := some "/həˈloʊ/",
     «example» := some "\"Hello, how are you?\" - \"Xin chào, bạn khỏe không?\"",
     category := some "Basic" },
   { english := some "Thank you", vietnamese := some "Cảm ơn",
     type := some "phrase", phonetic := some "/θæŋk juː/",
     «example» := some "\"Thank you for your help.\" - \"Cảm ơn bạn đã giúp đỡ.\"",
     category := some "Basic" },
   { english := some "Beautiful", vietnamese := some "Đẹp",
     type := some "adjective", phonetic := some "/ˈbjuːtɪfəl/",
     «example» := some "\"She has a beautiful smile.\" - \"Cô ấy có nụ cười đẹp.\"",
     category := some "Basic" }]

/-- The default settings written by `initializeDefaultData`, in call order. -/
def defaultSettings : List (String × SettingVal) :=
  [("theme", .str "light"),
   ("language", .str "en"),
   ("autoPlay", .boolean true),
   ("showPhonetic", .boolean true),
   ("cardsPerSession", .num 10)]

/-- `initializeDefaultData()`: seed the default categories when the
categories table is empty, the sample vocabulary when the vocabulary table
is empty, and the default settings when the settings mapping has no keys;
a non-empty table is left untouched. -/
def initDefaultData (s : State) (fs : FSFile) : State × FSFile :=
  let p :=
    if (getAllCategories s).length = 0 then
      defaultCategories.foldl
        (fun (p : State × FSFile) c =>
          let r := addCategoryFS p.1 p.2 c
          ((r.1, r.2.1) : State × FSFile))
        ((s, fs) : State × FSFile)
    else ((s, fs) : State × FSFile)
  let p :=
    if (getAllVocabulary p.1 {}).length = 0 then
      sampleWords.foldl
        (fun (p : State × FSFile) w =>
          let r := addVocabularyFS p.1 p.2 w
          ((r.1, r.2.1) : State × FSFile))
        p
    else p
  if (getAllSettings p.1).length = 0 then
    defaultSettings.foldl
      (fun (p : State × FSFile) kv => saveSettingFS p.1 p.2 kv.1 kv.2)
      p
  else p

/-- `DatabaseManager.initialize('json', ...)` on the happy path: construct a
fresh `JSONDatabase`, initialize it at the (single, fixed) file location,
then seed default data. -/
def managerInit (fs : FSFile) : State × FSFile :=
  let r := initDb freshState fs
  initDefaultData r.1 r.2.1

end DatabaseManager

namespace VocabularyAPI

/-- A JS field value of a Solr document: a scalar string, an array of
strings, or absent.  (`Array.isArray` distinguishes the first two.) -/
inductive JsVal where
  | str (s : String)
  | arr (l : List String)
  | undef
  deriving DecidableEq

/-- JS truthiness of a field value (arrays are always truthy, even when
empty; `""` and `undefined` are falsy). -/
def jsTruthyVal : JsVal → Bool
  | .str s => s ≠ ""
  | .arr _ => true
  | .undef => false

/-- `v || d`. -/
def jsOrVal (v d : JsVal) : JsVal :=
  if jsTruthyVal v then v else d

/-- `Array.isArray(v) ? v[0] : v` — the first-element normalization used by
the paginated and session read paths. -/
def jsFirst : JsVal → Option String
  | .arr l => l.head?
  | .str s => some s
  | .undef => none

/-- `Array.isArray(v) ? v.join(', ') : v` — the joining normalization used
by the search and by-id read paths. -/
def jsJoin : JsVal → Option String
  | .arr l => some (String.intercalate ", " l)
  | .str s => some s
  | .undef => none

/-- A document as delivered by the Solr response envelope. -/
structure SolrDoc where
  id : String
  word : JsVal
  meaning_vi : JsVal
  note : JsVal
  version : Option Int := none
  deriving DecidableEq

/-- The value returned by `SolrService.searchVocabulary`: either the parsed
response (`success: true`) or the caught transport failure
(`success: false, data: [], total: 0`). -/
structure SolrResult where
  success : Bool
  data : List SolrDoc := []
  total : Nat := 0
  error : Option String := none
  deriving DecidableEq

/-- A vocabulary record normalized for the learning app. -/
structure Vocab where
  id : String
  english : Option String
  vietnamese : Option String
  note : Option String
  allMeanings : JsVal
  allWords : JsVal
  version : Option Int := none
  deriving DecidableEq

/-- First-element normalization of one document (paginated/session paths;
`allMeanings`/`allWords` keep the raw field, defaulted to `[]` on falsy). -/
def normFirst (d : SolrDoc) : Vocab where
  id := d.id
  english := jsFirst d.word
  vietnamese := jsFirst d.meaning_vi
  note := jsFirst d.note
  allMeanings := jsOrVal d.meaning_vi (.arr [])
  allWords := jsOrVal d.word (.arr [])
  version := d.version

/-- Joining normalization of one document (search path; the search mapping
carries no version field). -/
def normJoin (d : SolrDoc) : Vocab where
  id := d.id
  english := jsJoin d.word
  vietnamese := jsJoin d.meaning_vi
  note := jsJoin d.note
  allMeanings := jsOrVal d.meaning_vi (.arr [])
  allWords := jsOrVal d.word (.arr [])
  version := none

/-- Facade state: the readiness flag set once by `initialize()`. -/
structure APIState where
  isInitialized : Bool := false
  deriving DecidableEq

/-- `initialize()`: store the health-probe outcome as the readiness flag
and return it (a failed probe, including a thrown transport error, yields
`false`). -/
def apiInit (probe : Bool) : APIState × Bool :=
  ({ isInitialized := probe }, probe)

/-- `isReady()`. -/
def isReady (st : APIState) : Bool :=
  st.isInitialized

/-- The uniform not-available error message. -/
def notAvailableMsg : String := "Solr service not available"

/-- The pagination envelope of `getVocabularyPaginated`.  `totalPages` is
`Math.ceil(total / size)`, embedded as the exact rational ceiling (for
`size = 0` JavaScript would produce `Infinity`; the claims and the code's
defaults keep `size` positive). -/
structure Pagination where
  page : Nat
  size : Nat
  total : Nat
  totalPages : Nat
  hasNext : Bool
  hasPrevious : Bool
  deriving DecidableEq

/-- Options bag of `getVocabularyPaginated` (destructuring defaults
`page = 0`, `size = 10` apply only to absent fields; the requested sort is
ignored — the code always sorts by id). -/
structure PagOptions where
  page : Option Nat := none
  size : Option Nat := none
  category : Option String := none
  deriving DecidableEq

/-- Result shapes `getVocabularyPaginated` can return: the not-ready
envelope, the success envelope, or the failed Solr result passed through. -/
inductive PagResult where
  | unavailable
  | ok (data : List Vocab) (pagination : Pagination)
  | failed (r : SolrResult)
  deriving DecidableEq

/-- The `success` field of the returned object. -/
def PagResult.successOf : PagResult → Bool
  | .unavailable => false
  | .ok _ _ => true
  | .failed r => r.success

/-- The `error` field of the returned object. -/
def PagResult.errorOf : PagResult → Option String
  | .unavailable => some notAvailableMsg
  | .ok _ _ => none
  | .failed r => r.error

/-- The `pagination` field of the returned object. -/
def PagResult.paginationOf : PagResult → Option Pagination
  | .unavailable => none
  | .ok _ pg => some pg
  | .failed _ => none

/-- `getVocabularyPaginated(options)`: not-ready envelope when the probe
failed; otherwise issue the search (`start = page*size`, oracled as `r`)
and, on success, normalize the documents and build the pagination
envelope; a failed Solr result is returned unchanged. -/
def getVocabularyPaginated (st : APIState) (r : SolrResult) (o : PagOptions) : PagResult :=
  if !st.isInitialized then
    .unavailable
  else
    let page := o.page.getD 0
    let size := o.size.getD 10
    if r.success then
      .ok (r.data.map normFirst)
        { page := page, size := size, total := r.total,
          totalPages := Nat.ceil ((r.total : ℚ) / (size : ℚ)),
          hasNext := decide ((page + 1) * size < r.total),
          hasPrevious := decide (0 < page) }
    else .failed r

/-- Result shapes of `getVocabularySession` (the generated session id is an
opaque argument: its composition uses the wall clock and randomness). -/
inductive SessionResult where
  | unavailable
  | ok (data : List Vocab) (total : Nat) (sessionId : String)
  | failed (r : SolrResult)
  deriving DecidableEq

/-- The `success` field of the returned object. -/
def SessionResult.successOf : SessionResult → Bool
  | .unavailable => false
  | .ok _ _ _ => true
  | .failed r => r.success

/-- The `error` field of the returned object. -/
def SessionResult.errorOf : SessionResult → Option String
  | .unavailable => some notAvailableMsg
  | .ok _ _ _ => none
  | .failed r => r.error

/-- `getVocabularySession(options)`: not-ready envelope when the probe
failed; otherwise the random or sequential remote call (oracled as `r`) is
normalized first-element-wise. -/
def getVocabularySession (st : APIState) (r : SolrResult) (sid : String) : SessionResult :=
  if !st.isInitialized then
    .unavailable
  else if r.success then
    .ok (r.data.map normFirst) r.total sid
  else .failed r

/-- Result shapes of the facade `searchVocabulary`. -/
inductive SearchResult where
  | unavailable
  | ok (data : List Vocab) (total : Nat) (query : String)
  | failed (r : SolrResult)
  deriving DecidableEq

/-- The `success` field of the returned object. -/
def SearchResult.successOf : SearchResult → Bool
  | .unavailable => false
  | .ok _ _ _ => true
  | .failed r => r.success

/-- The `error` field of the returned object. -/
def SearchResult.errorOf : SearchResult → Option String
  | .unavailable => some notAvailableMsg
  | .ok _ _ _ => none
  | .failed r => r.error

/-- Facade `searchVocabulary(searchText)`: not-ready envelope when the
probe failed; otherwise the composed wildcard query's result (oracled as
`r`) is normalized join-wise. -/
def searchVocabularyApi (st : APIState) (r : SolrResult) (searchText : String) : SearchResult :=
  if !st.isInitialized then
    .unavailable
  else if r.success then
    .ok (r.data.map normJoin) r.total searchText
  else .failed r

/-- The value returned by `SolrService.getVocabularyById`: the first
matching document, or a not-found / transport failure. -/
structure SolrIdResult where
  success : Bool
  data : Option SolrDoc := none
  error : Option String := none
  deriving DecidableEq

/-- Result shapes of the facade `getVocabularyById`. -/
inductive ByIdResult where
  | unavailable
  | ok (v : Vocab)
  | failed (r : SolrIdResult)
  deriving DecidableEq

/-- The `success` field of the returned object. -/
def ByIdResult.successOf : ByIdResult → Bool
  | .unavailable => false
  | .ok _ => true
  | .failed r => r.success

/-- The `error` field of the returned object. -/
def ByIdResult.errorOf : ByIdResult → Option String
  | .unavailable => some notAvailableMsg
  | .ok _ => none
  | .failed r => r.error

/-- Facade `getVocabularyById(id)`: not-ready envelope when the probe
failed; otherwise normalize join-wise when the oracled result is a success
carrying a (truthy) document, else pass the result through.  The by-id
mapping keeps the version field. -/
def getVocabularyByIdApi (st : APIState) (r : SolrIdResult) : ByIdResult :=
  if !st.isInitialized then
    .unavailable
  else
    match r.data, r.success with
    | some d, true => .ok { normJoin d with version := d.version }
    | _, _ => .failed r

/-- The statistics payload (`{total, categories}`). -/
structure StatsData where
  total : Nat := 0
  categories : List String := []
  deriving DecidableEq

/-- The value returned by `SolrService.getStatistics` — also the shape the
facade's `getStatistics` returns in every branch. -/
structure StatsResult where
  success : Bool
  data : StatsData := {}
  error : Option String := none
  deriving DecidableEq

/-- Facade `getStatistics()`: not-ready envelope when the probe failed,
otherwise the Solr statistics result unchanged. -/
def getStatisticsApi (st : APIState) (r : StatsResult) : StatsResult :=
  if !st.isInitialized then
    { success := false, error := some notAvailableMsg, data := {} }
  else r

/-- Result shapes of the facade `getCategories`. -/
inductive CatResult where
  | unavailable
  | ok (data : List String)
  | failed (r : StatsResult)
  deriving DecidableEq

/-- The `success` field of the returned object. -/
def CatResult.successOf : CatResult → Bool
  | .unavailable => false
  | .ok _ => true
  | .failed r => r.success

/-- The `error` field of the returned object. -/
def CatResult.errorOf : CatResult → Option String
  | .unavailable => some notAvailableMsg
  | .ok _ => none
  | .failed r => r.error

/-- Facade `getCategories()`: not-ready envelope when the probe failed;
otherwise the category facet list of a successful statistics call, else
the failed statistics result passed through. -/
def getCategoriesApi (st : APIState) (r : StatsResult) : CatResult :=
  if !st.isInitialized then
    .unavailable
  else if r.success then
    .ok r.data.categories
  else .failed r

/-- The caller's input to the facade `addVocabulary`. -/
structure VocabInput where
  id : Option String := none
  english : Option String := none
  vietnamese : Option String := none
  note : Option String := none
  deriving DecidableEq

/-- The value returned by `SolrService.addVocabulary`: the committed
document's id on success, the caught transport failure otherwise. -/
structure SolrAddResult where
  success : Bool
  docId : String := ""
  error : Option String := none
  deriving DecidableEq

/-- Result shapes of the facade `addVocabulary`. -/
inductive AddResult where
  | unavailable
  | ok (id : String) (english vietnamese note : Option String) (message : String)
  | failed (r : SolrAddResult)
  deriving DecidableEq

/-- The `success` field of the returned object. -/
def AddResult.successOf : AddResult → Bool
  | .unavailable => false
  | .ok _ _ _ _ _ => true
  | .failed r => r.success

/-- The `error` field of the returned object. -/
def AddResult.errorOf : AddResult → Option String
  | .unavailable => some notAvailableMsg
  | .ok _ _ _ _ _ => none
  | .failed r => r.error

/-- Facade `addVocabulary(vocabulary)`: not-ready envelope when the probe
failed; otherwise the upsert (oracled as `r`) yields a success summary or
the failed result passed through. -/
def addVocabularyApi (st : APIState) (r : SolrAddResult) (v : VocabInput) : AddResult :=
  if !st.isInitialized then
    .unavailable
  else if r.success then
    .ok r.docId v.english v.vietnamese v.note "Vocabulary added successfully"
  else .failed r

end VocabularyAPI

end LearningEnglish

/-! ## Theorems -/

namespace LearningEnglish

namespace JSONDatabase

theorem deleteVocabularyFS_nextVocabId (s : State) (fs : FSFile) (i : Nat) :
    (deleteVocabularyFS s fs i).1.nextVocabId = s.nextVocabId := by
  by_cases h : (s.data.vocabulary.any fun w => w.id == i) = true <;>
    simp [deleteVocabularyFS, deleteVocabularyCore, h]

theorem deleteVocabularyFS_hasPath (s : State) (fs : FSFile) (i : Nat) :
    (deleteVocabularyFS s fs i).1.hasPath = s.hasPath := by
  by_cases h : (s.data.vocabulary.any fun w => w.id == i) = true <;>
    simp [deleteVocabularyFS, deleteVocabularyCore, h]

theorem deleteVocabularyFS_isConnected (s : State) (fs : FSFile) (i : Nat) :
    (deleteVocabularyFS s fs i).1.isConnected = s.isConnected := by
  by_cases h : (s.data.vocabulary.any fun w => w.id == i) = true <;>
    simp [deleteVocabularyFS, deleteVocabularyCore, h]

/-- The ids collected by a mutation sequence form the contiguous range that
starts at the incoming next-id counter and has one element per add. -/
theorem runOps_ids (ops : List VocabOp) : ∀ (s : State) (fs : FSFile),
    (runOps s fs ops).2.2 = List.range' s.nextVocabId (countAdds ops) := by
  induction ops with
  | nil => intro s fs; simp [runOps, countAdds]
  | cons op ops ih =>
    intro s fs
    cases op with
    | add w =>
      simp only [runOps, countAdds, addVocabularyFS, addVocabularyCore, ih,
        List.range'_succ]
    | del i =>
      simp only [runOps, countAdds, ih, deleteVocabularyFS_nextVocabId]

theorem runOps_hasPath (ops : List VocabOp) : ∀ (s : State) (fs : FSFile),
    (runOps s fs ops).1.hasPath = s.hasPath := by
  induction ops with
  | nil => intro s fs; rfl
  | cons op ops ih =>
    intro s fs
    cases op with
    | add w => simp only [runOps, ih, addVocabularyFS, addVocabularyCore]
    | del i => simp only [runOps, ih, deleteVocabularyFS_hasPath]

theorem runOps_isConnected (ops : List VocabOp) : ∀ (s : State) (fs : FSFile),
    (runOps s fs ops).1.isConnected = s.isConnected := by
  induction ops with
  | nil => intro s fs; rfl
  | cons op ops ih =>
    intro s fs
    cases op with
    | add w => simp only [runOps, ih, addVocabularyFS, addVocabularyCore]
    | del i => simp only [runOps, ih, deleteVocabularyFS_isConnected]

theorem runAdds_vocabulary_length (ws : List RawWord) : ∀ (s : State) (fs : FSFile),
    (runAdds s fs ws).1.data.vocabulary.length = s.data.vocabulary.length + ws.length := by
  induction ws with
  | nil => intro s fs; rfl
  | cons w ws ih =>
    intro s fs
    show (runOps _ _ (_ :: _)).1.data.vocabulary.length = _
    simp only [runOps]
    rw [show (runOps (addVocabularyFS s fs w).1 (addVocabularyFS s fs w).2.1
          (List.map VocabOp.add ws)) = runAdds (addVocabularyFS s fs w).1
          (addVocabularyFS s fs w).2.1 ws from rfl]
    simp [ih, addVocabularyFS, addVocabularyCore]
    omega

/-- With no options, `getAllVocabulary` returns the whole table. -/
theorem getAllVocabulary_default (s : State) :
    getAllVocabulary s {} = s.data.vocabulary := rfl

/--
C1.  For every sequence of `addVocabulary`/`deleteVocabulary` operations
starting from an empty vocabulary table (the constructor state, whose
next-id counter is 1, with no intervening close/re-initialize), the ids
returned by the adds are exactly `1, 2, …`: strictly increasing, starting
at 1, and never repeating — deletes do not touch the counter, so a deleted
id is never reassigned.
-/
theorem c1_add_ids_strictly_increasing (s : State) (fs : FSFile) (ops : List VocabOp)
    (_hvoc : s.data.vocabulary = []) (hnext : s.nextVocabId = 1) :
    (runOps s fs ops).2.2 = List.range' 1 (countAdds ops) ∧
    List.Pairwise (· < ·) (runOps s fs ops).2.2 ∧
    (runOps s fs ops).2.2.Nodup ∧
    ∀ i ∈ (runOps s fs ops).2.2, 1 ≤ i := by
  have h := runOps_ids ops s fs
  rw [hnext] at h
  refine ⟨h, ?_, ?_, ?_⟩
  · rw [h]; exact List.pairwise_lt_range' 1 (countAdds ops)
  · rw [h]; exact List.nodup_range' 1 (countAdds ops)
  · rw [h]; intro i hi; exact (List.mem_range'_1.mp hi).1

/-- Witness for C1: on the fresh store, add, delete id 1, add again — the
returned ids are 1 then 2 (the deleted id 1 is not reused). -/
theorem c1_witness :
    (freshState.data.vocabulary = [] ∧ freshState.nextVocabId = 1) ∧
    (runOps freshState emptyFS
      [.add { english := some "cat", vietnamese := some "mèo" },
       .del 1,
       .add { english := some "dog", vietnamese := some "chó" }]).2.2 = [1, 2] := by
  refine ⟨⟨rfl, rfl⟩, ?_⟩
  have h := (c1_add_ids_strictly_increasing freshState emptyFS
    [.add { english := some "cat", vietnamese := some "mèo" },
     .del 1,
     .add { english := some "dog", vietnamese := some "chó" }] rfl rfl).1
  simpa using h

/--
C2.  Round-trip through persistence: after adding N entries to a freshly
initialized store at an empty location, `close()` followed by
`initialize()` at the same location restores the same N entries with the
same ids and content, the reloaded list equals the pre-close list, the
next-id counter is recomputed as max existing id + 1, and the next
`addVocabulary` returns exactly that id.
-/
theorem c2_roundtrip (ws : List RawWord) :
    (scenarioReloaded ws).1.data.vocabulary = (scenarioAdded ws).1.data.vocabulary ∧
    (scenarioReloaded ws).1.data.vocabulary.length = ws.length ∧
    getAllVocabulary (scenarioReloaded ws).1 {} = getAllVocabulary (scenarioAdded ws).1 {} ∧
    (scenarioReloaded ws).1.nextVocabId =
      maxId ((scenarioReloaded ws).1.data.vocabulary.map (fun e => e.id)) + 1 ∧
    ∀ w : RawWord, (addVocabularyCore (scenarioReloaded ws).1 w).2 =
      maxId ((scenarioReloaded ws).1.data.vocabulary.map (fun e => e.id)) + 1 := by
  have hpath : (scenarioAdded ws).1.hasPath = true := by
    show (runOps _ _ _).1.hasPath = true
    rw [runOps_hasPath]
    rfl
  have hconn : (scenarioAdded ws).1.isConnected = true := by
    show (runOps _ _ _).1.isConnected = true
    rw [runOps_isConnected]
    rfl
  have hclose : closeDb (scenarioAdded ws).1 (scenarioAdded ws).2 =
      (({ (scenarioAdded ws).1 with isConnected := false },
        some (scenarioAdded ws).1.data) : State × FSFile) := by
    simp [closeDb, jsSaveData, hconn, hpath]
  have hre : scenarioReloaded ws =
      ((initDb ({ (scenarioAdded ws).1 with isConnected := false })
          (some (scenarioAdded ws).1.data)).1,
       (initDb ({ (scenarioAdded ws).1 with isConnected := false })
          (some (scenarioAdded ws).1.data)).2.1) := by
    show ((closeDb (scenarioAdded ws).1 (scenarioAdded ws).2) |> fun p3 =>
        (((initDb p3.1 p3.2).1, (initDb p3.1 p3.2).2.1) : State × FSFile)) = _
    rw [hclose]
  have hvoc : (scenarioReloaded ws).1.data.vocabulary =
      (scenarioAdded ws).1.data.vocabulary := by
    rw [hre]; rfl
  have hlen : (scenarioAdded ws).1.data.vocabulary.length = ws.length := by
    show (runAdds _ _ _).1.data.vocabulary.length = _
    rw [runAdds_vocabulary_length,
      show (initDb freshState emptyFS).1.data.vocabulary.length = 0 from rfl]
    exact Nat.zero_add _
  refine ⟨hvoc, by rw [hvoc, hlen], by rw [getAllVocabulary_default,
    getAllVocabulary_default, hvoc], ?_, ?_⟩
  · rw [hre]; rfl
  · intro w; rw [hre]; rfl

/--
C3.  `getAllVocabulary` applies the category filter first, then the offset,
then the limit: whenever the Basic-filtered table is exactly `[b1, b2, b3]`
(in insertion order, other categories permitted around them),
`getAllVocabulary {category := "Basic", offset := 1, limit := 1}` returns
exactly the second Basic entry.
-/
theorem c3_filter_then_offset_then_limit (s : State) (b1 b2 b3 : Entry)
    (hb : s.data.vocabulary.filter (fun w => w.category == some "Basic") = [b1, b2, b3]) :
    getAllVocabulary s { category := some "Basic", offset := some 1, limit := some 1 }
      = [b2] := by
  simp [getAllVocabulary, truthyStr, truthyNat, hb]

/-- Witness for C3: on a table holding Basic entries with ids 1, 3, 4 and a
Travel entry with id 2, the query returns the second Basic entry (id 3). -/
theorem c3_witness :
    (c3State.data.vocabulary.filter (fun w => w.category == some "Basic")
        = [sampleEntry 1 "Basic", sampleEntry 3 "Basic", sampleEntry 4 "Basic"]) ∧
    getAllVocabulary c3State { category := some "Basic", offset := some 1, limit := some 1 }
      = [sampleEntry 3 "Basic"] := by
  refine ⟨by decide, ?_⟩
  exact c3_filter_then_offset_then_limit c3State (sampleEntry 1 "Basic")
    (sampleEntry 3 "Basic") (sampleEntry 4 "Basic") (by decide)

/--
C10.  `getAllVocabulary` treats falsy option values as absent: `offset 0` is
the same as no offset, `limit 0` returns all remaining entries (identical to
no limit) rather than an empty list, and `category ""` applies no filter.
-/
theorem c10_falsy_options_are_absent (s : State) (c : Option String) (o l : Option Nat) :
    getAllVocabulary s { category := c, offset := some 0, limit := l }
      = getAllVocabulary s { category := c, offset := none, limit := l } ∧
    getAllVocabulary s { category := c, offset := o, limit := some 0 }
      = getAllVocabulary s { category := c, offset := o, limit := none } ∧
    getAllVocabulary s { category := some "", offset := o, limit := l }
      = getAllVocabulary s { category := none, offset := o, limit := l } := by
  refine ⟨?_, ?_, ?_⟩ <;> simp [getAllVocabulary, truthyStr, truthyNat]

/--
C5.  `getOverallProgress` never divides by zero: `overallAccuracy` is
correct/total sessions with 0 when there are no sessions,
`masteryPercentage` is mastered/total words with 0 when there are no words,
`masteredWords` counts entries with masteryLevel ≥ 4, and on the empty
store both ratios are 0.
-/
theorem c5_overall_progress_guarded (s : State) :
    (getOverallProgress s).overallAccuracy =
      (if s.data.sessions.length = 0 then 0 else
        (((s.data.sessions.filter (fun t => t.correct)).length : ℚ) /
          (s.data.sessions.length : ℚ))) ∧
    (getOverallProgress s).masteryPercentage =
      (if s.data.vocabulary.length = 0 then 0 else
        (((s.data.vocabulary.filter (fun w => 4 ≤ w.masteryLevel)).length : ℚ) /
          (s.data.vocabulary.length : ℚ))) ∧
    (getOverallProgress s).masteredWords =
      (s.data.vocabulary.filter (fun w => 4 ≤ w.masteryLevel)).length ∧
    (getOverallProgress freshState).overallAccuracy = 0 ∧
    (getOverallProgress freshState).masteryPercentage = 0 := by
  refine ⟨?_, ?_, rfl, rfl, rfl⟩
  · by_cases h : s.data.sessions.length = 0
    · simp [getOverallProgress, h]
    · simp [getOverallProgress, h, Nat.pos_of_ne_zero h]
  · by_cases h : s.data.vocabulary.length = 0
    · simp [getOverallProgress, h]
    · simp [getOverallProgress, h, Nat.pos_of_ne_zero h]

/--
C4 counterexample.  The claim "no storage operation raises a language-level
fault for any store state, including entries whose english, vietnamese,
type or example fields are missing" is false: after
`addVocabulary({vietnamese: "xin"})` (no validation, `english` stays
undefined), `searchVocabulary("a")` throws a TypeError while lowercasing
the missing `english` field.
-/
theorem c4_counterexample :
    searchVocabulary (addVocabularyFS freshState emptyFS { vietnamese := some "xin" }).1 "a"
      = .error "TypeError: Cannot read properties of undefined (reading toLowerCase)" := by
  rfl

theorem entryMatches_ok (t : String) (w : Entry) (he : w.english.isSome)
    (hv : w.vietnamese.isSome) (hty : w.type.isSome) :
    ∃ b, entryMatches t w = .ok b := by
  obtain ⟨e, he⟩ := Option.isSome_iff_exists.mp he
  obtain ⟨v, hv⟩ := Option.isSome_iff_exists.mp hv
  obtain ⟨ty, hty⟩ := Option.isSome_iff_exists.mp hty
  cases hex : w.«example» with
  | none => simp only [entryMatches, he, hv, hty, hex, jsToLowerField]
            split_ifs <;> exact ⟨_, rfl⟩
  | some ex => simp only [entryMatches, he, hv, hty, hex, jsToLowerField]
               split_ifs <;> exact ⟨_, rfl⟩

theorem filterEntries_ok (t : String) (ws : List Entry)
    (h : ∀ w ∈ ws, w.english.isSome ∧ w.vietnamese.isSome ∧ w.type.isSome) :
    ∃ l, filterEntries (entryMatches t) ws = .ok l := by
  induction ws with
  | nil => exact ⟨[], rfl⟩
  | cons w ws ih =>
    obtain ⟨he, hv, hty⟩ := h w (by simp)
    obtain ⟨b, hb⟩ := entryMatches_ok t w he hv hty
    obtain ⟨l, hl⟩ := ih (fun x hx => h x (by simp [hx]))
    refine ⟨if b then w :: l else l, ?_⟩
    simp only [filterEntries, hb, hl]

/--
C4 (amended).  `searchVocabulary` returns normally (no thrown fault) for
every query whenever every stored entry has its english, vietnamese and
type fields present; entries missing one of those unguarded fields can make
it throw a TypeError (the guarded example field cannot).  `addVocabulary`
and `getAllVocabulary` are total for every state and input.
-/
theorem c4_search_returns_normally (s : State) (q : String)
    (h : ∀ w ∈ s.data.vocabulary, w.english.isSome ∧ w.vietnamese.isSome ∧ w.type.isSome) :
    ∃ l, searchVocabulary s q = .ok l :=
  filterEntries_ok (jsLower q) s.data.vocabulary h

/-- Witness for C4 (amended): a store with one fully populated entry is
searched without a fault. -/
theorem c4_witness :
    (∀ w ∈ (addVocabularyFS freshState emptyFS
        { english := some "Hello", vietnamese := some "Xin chào" }).1.data.vocabulary,
      w.english.isSome ∧ w.vietnamese.isSome ∧ w.type.isSome) ∧
    (∃ l, searchVocabulary (addVocabularyFS freshState emptyFS
        { english := some "Hello", vietnamese := some "Xin chào" }).1 "hello" = .ok l) := by
  refine ⟨by decide, ?_⟩
  exact c4_search_returns_normally _ _ (by decide)

theorem importLoop_imported (ws : List RawWord) : ∀ (s : State) (fs : FSFile) (n : Nat),
    (importLoop s fs n ws).2.2 = n + (ws.filter validWord).length := by
  induction ws with
  | nil => intro s fs n; rfl
  | cons w ws ih =>
    intro s fs n
    by_cases h : validWord w = true
    · simp [importLoop, h, ih]
      omega
    · simp [importLoop, h, ih]

theorem importLoop_content (ws : List RawWord) : ∀ (s : State) (fs : FSFile) (n : Nat),
    (importLoop s fs n ws).1.data.vocabulary.map (fun e => (e.english, e.vietnamese))
      = s.data.vocabulary.map (fun e => (e.english, e.vietnamese))
        ++ (ws.filter validWord).map (fun w => (w.english, w.vietnamese)) := by
  induction ws with
  | nil => intro s fs n; simp [importLoop]
  | cons w ws ih =>
    intro s fs n
    by_cases h : validWord w = true
    · simp [importLoop, h, ih, addVocabularyFS, addVocabularyCore, mkEntry]
    · simp [importLoop, h, ih]

/--
C9.  `importVocabulary` adds a candidate record iff it has truthy (defined,
non-empty) english and vietnamese, never aborts the batch, and reports
`imported` = number of valid records and `total` = number of candidate
records; in particular a payload of 5 candidates of which 2 lack a
Vietnamese value yields `{imported: 3, total: 5}`.
-/
theorem c9_import_counts (s : State) (fs : FSFile) (ws : List RawWord) :
    (importVocabularyRecords s fs ws).imported = (ws.filter validWord).length ∧
    (importVocabularyRecords s fs ws).total = ws.length ∧
    (importVocabularyRecords s fs ws).state.data.vocabulary.map
        (fun e => (e.english, e.vietnamese))
      = s.data.vocabulary.map (fun e => (e.english, e.vietnamese))
        ++ (ws.filter validWord).map (fun w => (w.english, w.vietnamese)) ∧
    (importVocabularyRecords freshState emptyFS importDemo).imported = 3 ∧
    (importVocabularyRecords freshState emptyFS importDemo).total = 5 := by
  refine ⟨?_, rfl, ?_, by decide, by decide⟩
  · show (importLoop s fs 0 ws).2.2 = _
    rw [importLoop_imported]
    exact Nat.zero_add _
  · exact importLoop_content ws s fs 0

end JSONDatabase

namespace DatabaseManager

open JSONDatabase

/-- When all three tables are already non-empty, `initializeDefaultData`
seeds nothing and leaves store and file untouched. -/
theorem initDefaultData_nonempty (s : State) (fs : FSFile)
    (hc : s.data.categories ≠ []) (hv : s.data.vocabulary ≠ [])
    (hs : s.data.settings ≠ []) :
    initDefaultData s fs = ((s, fs) : State × FSFile) := by
  simp [initDefaultData, getAllCategories, getAllSettings, getAllVocabulary_default,
    List.length_eq_zero, hc, hv, hs]

/--
C8 (amended).  Store Manager seeding is idempotent: `initializeDefaultData`
on a store whose categories, vocabulary and settings tables are all
non-empty adds nothing, and a second `initialize` over the file produced by
the first changes no data; the seed written into an empty store consists of
five fixed categories, three sample vocabulary entries and five default
settings.
-/
theorem c8_seeding_idempotent :
    (∀ (s : State) (fs : FSFile), s.data.categories ≠ [] →
      s.data.vocabulary ≠ [] → s.data.settings ≠ [] →
      initDefaultData s fs = ((s, fs) : State × FSFile)) ∧
    (managerInit emptyFS).1.data.categories.length = 5 ∧
    (managerInit emptyFS).1.data.vocabulary.length = 3 ∧
    (managerInit emptyFS).1.data.settings.length = 5 ∧
    (managerInit (managerInit emptyFS).2).1.data = (managerInit emptyFS).1.data := by
  exact ⟨fun s fs hc hv hs => initDefaultData_nonempty s fs hc hv hs,
    by decide, by decide, by decide, by decide⟩

/--
C8 counterexample.  The claim says the seed holds four default settings;
seeding an empty store actually writes five (theme, language, autoPlay,
showPhonetic, cardsPerSession).
-/
theorem c8_counterexample :
    (managerInit emptyFS).1.data.settings.length = 5 ∧
    ¬ (managerInit emptyFS).1.data.settings.length = 4 := by
  exact ⟨by decide, by decide⟩

/-- Witness for C8 (amended): the store produced by the first initialize
has non-empty tables, and re-seeding it changes nothing. -/
theorem c8_witness :
    ((managerInit emptyFS).1.data.categories ≠ [] ∧
     (managerInit emptyFS).1.data.vocabulary ≠ [] ∧
     (managerInit emptyFS).1.data.settings ≠ []) ∧
    initDefaultData (managerInit emptyFS).1 (managerInit emptyFS).2
      = (((managerInit emptyFS).1, (managerInit emptyFS).2) : State × FSFile) := by
  refine ⟨⟨by decide, by decide, by decide⟩, ?_⟩
  exact c8_seeding_idempotent.1 _ _ (by decide) (by decide) (by decide)

end DatabaseManager

namespace VocabularyAPI

/-- For positive divisors the rational ceiling of `T / s` is the integer
formula `(T + s - 1) / s`. -/
theorem nat_ceil_div_eq (T s : Nat) (hs : 0 < s) :
    Nat.ceil ((T : ℚ) / (s : ℚ)) = (T + s - 1) / s := by
  have hs' : (0 : ℚ) < (s : ℚ) := by exact_mod_cast hs
  apply le_antisymm
  · rw [Nat.ceil_le, div_le_iff₀ hs']
    have h1 : T ≤ (T + s - 1) / s * s := by
      have hdm := Nat.div_add_mod (T + s - 1) s
      have hml := Nat.mod_lt (T + s - 1) hs
      rw [Nat.mul_comm s ((T + s - 1) / s)] at hdm
      generalize (T + s - 1) / s * s = K at hdm ⊢
      omega
    exact_mod_cast h1
  · rcases Nat.eq_zero_or_pos ((T + s - 1) / s) with h | h
    · simp [h]
    · have hq : (T + s - 1) / s - 1 < Nat.ceil ((T : ℚ) / (s : ℚ)) := by
        rw [Nat.lt_ceil, lt_div_iff₀ hs']
        have h1 : ((T + s - 1) / s - 1) * s < T := by
          have hdm := Nat.div_add_mod (T + s - 1) s
          have hml := Nat.mod_lt (T + s - 1) hs
          have hsk : s * 1 ≤ s * ((T + s - 1) / s) := Nat.mul_le_mul_left s h
          rw [Nat.sub_mul, Nat.one_mul]
          rw [Nat.mul_comm s ((T + s - 1) / s)] at hdm
          rw [Nat.mul_one, Nat.mul_comm s ((T + s - 1) / s)] at hsk
          generalize (T + s - 1) / s * s = K at hdm hsk ⊢
          omega
        exact_mod_cast h1
      omega

/--
C6.  For every successful remote result with total `T`, every page `p` and
size `s > 0`, `getVocabularyPaginated` returns the envelope with
`totalPages = ceil(T/s)` (equal to `(T + s - 1) / s`), `hasNext` iff
`(p+1)*s < T`, and `hasPrevious` iff `p > 0`.
-/
theorem c6_pagination_envelope (r : SolrResult) (p s : Nat)
    (hr : r.success = true) (hs : 0 < s) :
    (getVocabularyPaginated { isInitialized := true } r
        { page := some p, size := some s }).paginationOf =
      some { page := p, size := s, total := r.total,
             totalPages := (r.total + s - 1) / s,
             hasNext := decide ((p + 1) * s < r.total),
             hasPrevious := decide (0 < p) } := by
  simp [getVocabularyPaginated, hr, PagResult.paginationOf,
    nat_ceil_div_eq r.total s hs]

/-- Witness for C6: with 25 matches and size 10, page 0 yields
`totalPages 3, hasNext, no hasPrevious`; page 2 yields
`no hasNext, hasPrevious`. -/
theorem c6_witness :
    (({ success := true, total := 25 } : SolrResult).success = true ∧ 0 < 10) ∧
    (getVocabularyPaginated { isInitialized := true }
        { success := true, total := 25 }
        { page := some 0, size := some 10 }).paginationOf =
      some { page := 0, size := 10, total := 25, totalPages := 3,
             hasNext := true, hasPrevious := false } ∧
    (getVocabularyPaginated { isInitialized := true }
        { success := true, total := 25 }
        { page := some 2, size := some 10 }).paginationOf =
      some { page := 2, size := 10, total := 25, totalPages := 3,
             hasNext := false, hasPrevious := true } := by
  refine ⟨⟨rfl, by decide⟩, ?_, ?_⟩
  · rw [c6_pagination_envelope { success := true, total := 25 } 0 10 rfl (by decide)]
    decide
  · rw [c6_pagination_envelope { success := true, total := 25 } 2 10 rfl (by decide)]
    decide

/--
C7.  When the health probe fails during facade initialization, `isReady()`
is false and every facade method returns the uniform not-available envelope
(`success: false` with the fixed error message) instead of raising.
-/
theorem c7_not_ready_envelopes :
    isReady (apiInit false).1 = false ∧
    (∀ (r : SolrResult) (o : PagOptions),
      (getVocabularyPaginated (apiInit false).1 r o).successOf = false ∧
      (getVocabularyPaginated (apiInit false).1 r o).errorOf = some notAvailableMsg) ∧
    (∀ (r : SolrResult) (sid : String),
      (getVocabularySession (apiInit false).1 r sid).successOf = false ∧
      (getVocabularySession (apiInit false).1 r sid).errorOf = some notAvailableMsg) ∧
    (∀ (r : SolrResult) (q : String),
      (searchVocabularyApi (apiInit false).1 r q).successOf = false ∧
      (searchVocabularyApi (apiInit false).1 r q).errorOf = some notAvailableMsg) ∧
    (∀ r : SolrIdResult,
      (getVocabularyByIdApi (apiInit false).1 r).successOf = false ∧
      (getVocabularyByIdApi (apiInit false).1 r).errorOf = some notAvailableMsg) ∧
    (∀ r : StatsResult,
      (getCategoriesApi (apiInit false).1 r).successOf = false ∧
      (getCategoriesApi (apiInit false).1 r).errorOf = some notAvailableMsg) ∧
    (∀ (r : SolrAddResult) (v : VocabInput),
      (addVocabularyApi (apiInit false).1 r v).successOf = false ∧
      (addVocabularyApi (apiInit false).1 r v).errorOf = some notAvailableMsg) ∧
    (∀ r : StatsResult,
      (getStatisticsApi (apiInit false).1 r).success = false ∧
      (getStatisticsApi (apiInit false).1 r).error = some notAvailableMsg) := by
  refine ⟨rfl, ?_, ?_, ?_, ?_, ?_, ?_, ?_⟩ <;> intros <;> exact ⟨rfl, rfl⟩

end VocabularyAPI

end LearningEnglish
